import Mathlib

/-!
Shallow embedding of the IPMI API gateway's multi-server command dispatch and
response-normalization layer (`src/services/ipmi_service.py`), together with
theorems settling the specification claims about it.

Python dictionaries are embedded as ordered association lists over an
inductive value type `Val`; subprocess execution is abstracted as an
`ExecOutcome` supplied by a `Runner` function; every operation returns the
result dictionary paired with the ordered list of `(command, timeout)`
subprocess invocations it performed.
-/

/-- A Python-level value as it appears in the service's result dictionaries. -/
inductive Val where
  | vstr : String → Val
  | vbool : Bool → Val
  | vnull : Val
  | vnat : Nat → Val
  | vlist : List Val → Val
  | vdict : List (String × Val) → Val

/-- A Python dict with string keys: an ordered association list. -/
abbrev Dict := List (String × Val)

/-- `d[k]` lookup, returning the first binding of `k`. -/
def Dict.get? : Dict → String → Option Val
  | [], _ => none
  | (k0, v0) :: rest, k => if k0 == k then some v0 else Dict.get? rest k

/-- `d.get(k, dflt)`. -/
def Dict.getD (d : Dict) (k : String) (dflt : Val) : Val :=
  (Dict.get? d k).getD dflt

/-- `d[k]` where the service code knows the key is present (defaults to
`vnull` otherwise, which no claim exercises). -/
def Dict.getV (d : Dict) (k : String) : Val :=
  Dict.getD d k .vnull

/-- `k in d`. -/
def Dict.containsKey (d : Dict) (k : String) : Bool :=
  (Dict.get? d k).isSome

/-- `d[k] = v`: update the first binding of `k` in place, else append. -/
def Dict.set : Dict → String → Val → Dict
  | [], k, v => [(k, v)]
  | (k0, v0) :: rest, k, v =>
      if k0 == k then (k0, v) :: rest else (k0, v0) :: Dict.set rest k v

/-- Python truthiness of a `Val` (`if r.get('success', False):`). -/
def Val.isTruthy : Val → Bool
  | .vstr s => s ≠ ""
  | .vbool b => b
  | .vnull => false
  | .vnat n => n ≠ 0
  | .vlist l => !l.isEmpty
  | .vdict d => !d.isEmpty

/-- Coerce a `Val` known to be a string (the service indexes such fields
directly). -/
def Val.asStr : Val → String
  | .vstr s => s
  | _ => ""

/-- Coerce a `Val` known to be a dict. -/
def Val.asDict : Val → Dict
  | .vdict d => d
  | _ => []

/-- `some s` as a `Val`, `None` otherwise: how `self.server_id` lands in a
result dict. -/
def optStr : Option String → Val
  | some s => .vstr s
  | none => .vnull

/-- Byte-wise prefix test on character lists. -/
def charsPrefix : List Char → List Char → Bool
  | [], _ => true
  | _ :: _, [] => false
  | a :: as, b :: bs => a == b && charsPrefix as bs

/-- Needle occurs somewhere in the haystack. -/
def charsContains (needle : List Char) : List Char → Bool
  | [] => charsPrefix needle []
  | c :: rest => charsPrefix needle (c :: rest) || charsContains needle rest

/-- Python's substring operator `t in s`. -/
def strContains (s t : String) : Bool :=
  charsContains t.data s.data

/-- The whitespace characters `str.strip()` removes (ASCII set). -/
def isPySpace (c : Char) : Bool :=
  c == ' ' || c == '\t' || c == '\n' || c == '\r' || c == '\x0b' || c == '\x0c'

/-- Python `s.strip()`. -/
def pyStrip (s : String) : String :=
  ⟨((s.data.dropWhile isPySpace).reverse.dropWhile isPySpace).reverse⟩

/-- Python `s.lower()` (ASCII). -/
def pyLower (s : String) : String :=
  ⟨s.data.map Char.toLower⟩

/-- Splitting on a non-empty separator, left to right, keeping empty
pieces; `skip` counts characters still to consume from a matched separator. -/
def splitSepAux (sep : List Char) : List Char → Nat → List Char → List (List Char)
  | [], _, acc => [acc.reverse]
  | _ :: rest, Nat.succ k, acc => splitSepAux sep rest k acc
  | c :: rest, 0, acc =>
      if charsPrefix sep (c :: rest) then
        acc.reverse :: splitSepAux sep rest (sep.length - 1) []
      else
        splitSepAux sep rest 0 (c :: acc)

/-- Python `s.split(sep)` for a non-empty separator. -/
def pySplit (s sep : String) : List String :=
  if sep.data.isEmpty then [s]
  else (splitSepAux sep.data s.data 0 []).map (fun l => ⟨l⟩)

/-- Joining with a separator. -/
def joinWith (sep : List Char) : List (List Char) → List Char
  | [] => []
  | [x] => x
  | x :: y :: rest => x ++ sep ++ joinWith sep (y :: rest)

/-- `sep.join(pieces)`. -/
def pyJoin (sep : String) (l : List String) : String :=
  ⟨joinWith sep.data (l.map String.data)⟩

/-- Python `s.replace(old, new)` for a non-empty `old`. -/
def pyReplace (s old new : String) : String :=
  pyJoin new (pySplit s old)

/-- Connection profile of one management controller. -/
structure IPMIConfig where
  hostname : String
  username : String
  password : String
deriving DecidableEq, Repr

/-- An `IPMIService` instance after `__init__`: the bound server id (may be
`None` in single-server mode) and its resolved connection profile. -/
structure Service where
  server_id : Option String
  config : IPMIConfig

/-- Outcome of one `subprocess.run` invocation of the external tool. -/
inductive ExecOutcome where
  | completed (returncode : Int) (stdout stderr : String)
  | timedOut
  | failed (msg : String)

/-- Abstract subprocess behavior: outcome as a function of the argument
string handed to `_execute_ipmi_command` and its timeout. -/
def Runner := String → Nat → ExecOutcome

/-- Result normalization of `_execute_ipmi_command`: zero exit keeps trimmed
stdout with no error; non-zero exit keeps trimmed stdout and trimmed stderr;
timeout yields the fixed message; any other failure carries its message. -/
def normalizeResult (svc : Service) (o : ExecOutcome) : Dict :=
  match o with
  | .completed rc stdout stderr =>
      if rc == 0 then
        [("success", .vbool true),
         ("output", .vstr (pyStrip stdout)),
         ("error", .vnull),
         ("server_id", optStr svc.server_id),
         ("hostname", .vstr svc.config.hostname)]
      else
        [("success", .vbool false),
         ("output", .vstr (pyStrip stdout)),
         ("error", .vstr (pyStrip stderr)),
         ("server_id", optStr svc.server_id),
         ("hostname", .vstr svc.config.hostname)]
  | .timedOut =>
      [("success", .vbool false),
       ("output", .vstr ""),
       ("error", .vstr "Command timed out"),
       ("server_id", optStr svc.server_id),
       ("hostname", .vstr svc.config.hostname)]
  | .failed msg =>
      [("success", .vbool false),
       ("output", .vstr ""),
       ("error", .vstr msg),
       ("server_id", optStr svc.server_id),
       ("hostname", .vstr svc.config.hostname)]

/-- `_execute_ipmi_command(command, timeout)`: one subprocess invocation,
returning the normalized result and recording the call. -/
def execCmd (svc : Service) (runner : Runner) (command : String) (timeout : Nat) :
    Dict × List (String × Nat) :=
  (normalizeResult svc (runner command timeout), [(command, timeout)])

example : Dict.get? [("a", .vbool true), ("b", .vnull)] "b" = some .vnull := rfl
example : strContains "chassis power is ON" "power is" = true := rfl
example : strContains "abc" "bd" = false := rfl
example : strContains "abc" "" = true := rfl

/-! ## Per-server operations (`IPMIService` methods) -/

/-- `power_on`. -/
def powerOn (svc : Service) (runner : Runner) : Dict × List (String × Nat) :=
  execCmd svc runner "chassis power on" 30

/-- `power_off(force)`: hard off when forced, soft otherwise. -/
def powerOff (svc : Service) (runner : Runner) (force : Bool) :
    Dict × List (String × Nat) :=
  if force then execCmd svc runner "chassis power off" 30
  else execCmd svc runner "chassis power soft" 30

/-- `power_reset`. -/
def powerReset (svc : Service) (runner : Runner) : Dict × List (String × Nat) :=
  execCmd svc runner "chassis power reset" 30

/-- `get_power_status`: on success attaches `power_state` derived by
substring inspection of the lower-cased output. -/
def getPowerStatus (svc : Service) (runner : Runner) : Dict × List (String × Nat) :=
  let r := execCmd svc runner "chassis power status" 30
  let result := r.1
  if (Dict.getV result "success").isTruthy then
    let output := pyLower (Dict.getV result "output").asStr
    let power_state :=
      if strContains output "power is on" then "on"
      else if strContains output "power is off" then "off"
      else "unknown"
    (Dict.set result "power_state" (.vstr power_state), r.2)
  else r

/-- `_parse_sensor_output` on one line: kept when the line contains a pipe
and splits (trimmed) into at least 3 fields. -/
def parseSensorLine (line : String) : Option Dict :=
  if strContains line "|" then
    let parts := (pySplit line "|").map pyStrip
    if 3 ≤ parts.length then
      some [("name", .vstr (parts.getD 0 "")),
            ("value", .vstr (parts.getD 1 "")),
            ("unit", .vstr (parts.getD 2 "")),
            ("status", .vstr (parts.getD 3 "")),
            ("lower_nr", .vstr (parts.getD 4 "")),
            ("lower_cr", .vstr (parts.getD 5 "")),
            ("lower_nc", .vstr (parts.getD 6 "")),
            ("upper_nc", .vstr (parts.getD 7 "")),
            ("upper_cr", .vstr (parts.getD 8 "")),
            ("upper_nr", .vstr (parts.getD 9 ""))]
    else none
  else none

/-- `_parse_sensor_output`. -/
def parseSensorOutput (output : String) : List Dict :=
  (pySplit output "\n").filterMap parseSensorLine

/-- `get_sensor_data` (45s timeout): on success attaches `sensors` and
`sensor_count`. -/
def getSensorData (svc : Service) (runner : Runner) : Dict × List (String × Nat) :=
  let r := execCmd svc runner "sensor" 45
  let result := r.1
  if (Dict.getV result "success").isTruthy then
    let sensors := parseSensorOutput (Dict.getV result "output").asStr
    (Dict.set (Dict.set result "sensors" (.vlist (sensors.map Val.vdict)))
       "sensor_count" (.vnat sensors.length), r.2)
  else r

/-- `_parse_sel_output` on one line: kept when non-blank and splitting
(trimmed) on pipes into at least 4 fields. -/
def parseSelLine (line : String) : Option Dict :=
  if pyStrip line ≠ "" then
    let parts := (pySplit line "|").map pyStrip
    if 4 ≤ parts.length then
      some [("id", .vstr (parts.getD 0 "")),
            ("timestamp", .vstr (if 2 < parts.length then
                parts.getD 1 "" ++ " " ++ parts.getD 2 "" else parts.getD 1 "")),
            ("sensor", .vstr (parts.getD 3 "")),
            ("event", .vstr (parts.getD 4 "")),
            ("value", .vstr (parts.getD 5 ""))]
    else none
  else none

/-- `_parse_sel_output`: the raw lines are truncated to `limit` BEFORE
per-line parsing. -/
def parseSelOutput (output : String) (limit : Nat) : List Dict :=
  ((pySplit output "\n").take limit).filterMap parseSelLine

/-- `get_system_event_log(limit)`: on success attaches `events` and
`event_count`. -/
def getSystemEventLog (svc : Service) (runner : Runner) (limit : Nat) :
    Dict × List (String × Nat) :=
  let r := execCmd svc runner "sel list" 30
  let result := r.1
  if (Dict.getV result "success").isTruthy then
    let events := parseSelOutput (Dict.getV result "output").asStr limit
    (Dict.set (Dict.set result "events" (.vlist (events.map Val.vdict)))
       "event_count" (.vnat events.length), r.2)
  else r

/-- `clear_system_event_log`. -/
def clearSystemEventLog (svc : Service) (runner : Runner) : Dict × List (String × Nat) :=
  execCmd svc runner "sel clear" 30

/-- `get_sel_info`. -/
def getSelInfo (svc : Service) (runner : Runner) : Dict × List (String × Nat) :=
  execCmd svc runner "sel info" 30

/-- The fixed boot-device whitelist of `set_boot_device`. -/
def validDevices : List String := ["pxe", "disk", "cdrom", "bios", "floppy", "safe"]

/-- `set_boot_device(device, persistent)`: an invalid device (lower-cased
name outside the whitelist) is a local validation failure with no subprocess
call; otherwise the command is built from the ORIGINAL device string. -/
def setBootDevice (svc : Service) (runner : Runner) (device : String)
    (persistent : Bool) : Dict × List (String × Nat) :=
  if !(validDevices.contains (pyLower device)) then
    ([("success", .vbool false),
      ("error", .vstr ("Invalid boot device \x27" ++ device ++
        "\x27. Valid options: pxe, disk, cdrom, bios, floppy, safe")),
      ("server_id", optStr svc.server_id),
      ("hostname", .vstr svc.config.hostname)], [])
  else
    let options := if persistent then "options=persistent" else "options=efiboot"
    execCmd svc runner ("chassis bootdev " ++ device ++ " " ++ options) 30

/-- `_parse_boot_device_output`: each colon-containing line contributes the
normalized key (trim, lower, spaces to underscores) mapped to the trimmed
remainder after the first colon. -/
def parseBootDeviceOutput (output : String) : Dict :=
  (pySplit output "\n").foldl (fun boot_info line =>
    if strContains line ":" then
      let ps := pySplit line ":"
      let key := ps.headD ""
      let value := pyJoin ":" ps.tail
      Dict.set boot_info (pyReplace (pyLower (pyStrip key)) " " "_") (.vstr (pyStrip value))
    else boot_info) []

/-- `get_boot_device`: on success attaches the parsed `boot_device` mapping. -/
def getBootDevice (svc : Service) (runner : Runner) : Dict × List (String × Nat) :=
  let r := execCmd svc runner "chassis bootparam get 5" 30
  let result := r.1
  if (Dict.getV result "success").isTruthy then
    (Dict.set result "boot_device" (.vdict (parseBootDeviceOutput
       (Dict.getV result "output").asStr)), r.2)
  else r

/-- `get_system_info`: four sub-commands, overall success is the conjunction
of the four, and all four sub-results are returned regardless. -/
def getSystemInfo (svc : Service) (runner : Runner) : Dict × List (String × Nat) :=
  let r1 := execCmd svc runner "fru" 30
  let r2 := execCmd svc runner "bmc info" 30
  let r3 := execCmd svc runner "chassis status" 30
  let r4 := execCmd svc runner "fru print" 30
  let results : Dict :=
    [("fru", .vdict r1.1), ("bmc_info", .vdict r2.1),
     ("chassis_status", .vdict r3.1), ("system_info", .vdict r4.1)]
  ([("success", .vbool ((Dict.getV r1.1 "success").isTruthy
      && (Dict.getV r2.1 "success").isTruthy
      && (Dict.getV r3.1 "success").isTruthy
      && (Dict.getV r4.1 "success").isTruthy)),
    ("system_info", .vdict results),
    ("server_id", optStr svc.server_id),
    ("hostname", .vstr svc.config.hostname)],
   r1.2 ++ r2.2 ++ r3.2 ++ r4.2)

/-- `check_health`: chassis-status probe; on success builds a `details`
mapping (which carries `server_id`/`hostname`) and folds in the power state
when the secondary probe succeeds; on failure returns a flat error result. -/
def checkHealth (svc : Service) (runner : Runner) : Dict × List (String × Nat) :=
  let r := execCmd svc runner "chassis status" 30
  let result := r.1
  if (Dict.getV result "success").isTruthy then
    let details : Dict :=
      [("ipmi_connection", .vstr "healthy"),
       ("chassis_status", Dict.getV result "output"),
       ("server_id", optStr svc.server_id),
       ("hostname", .vstr svc.config.hostname)]
    let pr := getPowerStatus svc runner
    let details :=
      if (Dict.getV pr.1 "success").isTruthy then
        Dict.set details "power_status" (Dict.getV pr.1 "power_state")
      else details
    ([("success", .vbool true), ("details", .vdict details)], r.2 ++ pr.2)
  else
    ([("success", .vbool false),
      ("error", Dict.getV result "error"),
      ("server_id", optStr svc.server_id),
      ("hostname", .vstr svc.config.hostname)], r.2)

/-! ## Configuration resolution (`IPMIService.__init__`, `_load_config`,
`_parse_multi_server_env`, `get_available_servers`)

`servers_config` is the dict `_load_config` returns: in single-server mode a
flat profile dict (keys `hostname`/`username`/`password` with string
values), in multi-server mode a dict mapping server ids to profile dicts. -/

/-- The flat single-server `servers_config` dict. -/
def singleConfig (h u p : String) : Dict :=
  [("hostname", .vstr h), ("username", .vstr u), ("password", .vstr p)]

/-- An `IPMIService` right after `__init__`, before any field access:
`server_id` and the raw `self.config` value. -/
structure RawService where
  server_id : Option String
  config : Val

/-- `IPMIService.__init__(server_id)` after `_load_config` produced
`servers_config`: an explicit id must be a key of the dict, else
`ValueError`; with no id, a single-server dict (detected by the presence of
the `hostname` key) is used whole, otherwise the first entry is taken (an
empty multi dict raises `StopIteration`, whose message is empty). -/
def serviceInit (servers_config : Dict) (server_id : Option String) :
    Except String RawService :=
  match server_id with
  | some sid =>
      match Dict.get? servers_config sid with
      | some v => .ok ⟨some sid, v⟩
      | none => .error ("Server \x27" ++ sid ++ "\x27 not found in configuration")
  | none =>
      if (Dict.get? servers_config "hostname").isSome then
        .ok ⟨none, .vdict servers_config⟩
      else
        match servers_config with
        | [] => .error ""
        | (k, v) :: _ => .ok ⟨some k, v⟩

/-- `get_available_servers`: the literal `['default']` in single-server
mode, else the dict's keys. -/
def getAvailableServers (servers_config : Dict) : List String :=
  if (Dict.get? servers_config "hostname").isSome then ["default"]
  else servers_config.map Prod.fst

/-- One step of `_parse_multi_server_env`'s loop: strip the entry, split on
colons; at least 4 parts binds the first four as id, host, user, pass;
exactly 2 parts binds id, host with environment-default credentials
(falling back to admin/admin); anything else leaves the registry unchanged. -/
def processHostEntry (ipmiUser ipmiPassword : Option String)
    (servers : Dict) (host_config : String) : Dict :=
  let parts := pySplit (pyStrip host_config) ":"
  if 4 ≤ parts.length then
    Dict.set servers (parts.getD 0 "")
      (.vdict [("hostname", .vstr (parts.getD 1 "")),
               ("username", .vstr (parts.getD 2 "")),
               ("password", .vstr (parts.getD 3 ""))])
  else if parts.length == 2 then
    Dict.set servers (parts.getD 0 "")
      (.vdict [("hostname", .vstr (parts.getD 1 "")),
               ("username", .vstr (ipmiUser.getD "admin")),
               ("password", .vstr (ipmiPassword.getD "admin"))])
  else servers

/-- `_parse_multi_server_env(ipmi_hosts)` with the `IPMI_USER`/
`IPMI_PASSWORD` environment values as inputs (`none` = unset). -/
def parseMultiServerEnv (ipmiUser ipmiPassword : Option String)
    (ipmi_hosts : String) : Dict :=
  (pySplit ipmi_hosts ",").foldl (processHostEntry ipmiUser ipmiPassword) []

/-! ## Fleet dispatch (`MultiServerIPMIService.execute_on_all_servers`)

Per-server dispatch behavior is abstracted as
`Except String (Except String Dict)`: the outer layer is service
construction (error = exception message), the inner layer the operation
invocation (reached only when the operation name is a supported attribute). -/

/-- The result synthesized when constructing the service or invoking the
operation raises. -/
def exnResult (msg sid : String) : Dict :=
  [("success", .vbool false), ("error", .vstr msg), ("server_id", .vstr sid)]

/-- The result synthesized for an unsupported operation name. -/
def unsupportedResult (operation sid : String) : Dict :=
  [("success", .vbool false),
   ("error", .vstr ("Operation \x27" ++ operation ++ "\x27 not supported")),
   ("server_id", .vstr sid)]

/-- The loop body of `execute_on_all_servers` for one server. -/
def dispatchOne (operation : String) (supported : Bool)
    (b : Except String (Except String Dict)) (sid : String) : Dict :=
  match b with
  | .error msg => exnResult msg sid
  | .ok inv =>
      if supported then
        match inv with
        | .error msg => exnResult msg sid
        | .ok d => d
      else unsupportedResult operation sid

/-- `execute_on_all_servers(operation)`: one dispatch per registered server
id, then the aggregate with `total_servers`, the truthy-success count
`successful`, and the per-server results dict. -/
def executeOnAllServers (operation : String) (supported : Bool)
    (behavior : String → Except String (Except String Dict))
    (servers : List String) : Dict :=
  let results := servers.foldl (fun acc sid =>
    Dict.set acc sid (.vdict (dispatchOne operation supported (behavior sid) sid))) []
  [("operation", .vstr operation),
   ("total_servers", .vnat servers.length),
   ("successful", .vnat (results.countP (fun kv =>
      (Dict.getD kv.2.asDict "success" (.vbool false)).isTruthy))),
   ("results", .vdict results)]

/-! ## Association-list lemmas -/

theorem Dict.get?_set (d : Dict) (k' k : String) (v : Val) :
    Dict.get? (Dict.set d k' v) k = if k' == k then some v else Dict.get? d k := by
  induction d with
  | nil =>
      by_cases h : k' = k
      · simp [Dict.set, Dict.get?, h]
      · simp [Dict.set, Dict.get?, h]
  | cons hd tl ih =>
      obtain ⟨k0, v0⟩ := hd
      by_cases h0 : k0 = k'
      · subst h0
        by_cases h : k0 = k
        · simp [Dict.set, Dict.get?, h]
        · simp [Dict.set, Dict.get?, h]
      · by_cases h : k0 = k
        · subst h
          have : k' ≠ k0 := fun hc => h0 hc.symm
          simp [Dict.set, Dict.get?, h0, this]
        · simp [Dict.set, Dict.get?, h0, h, ih]

theorem Dict.get?_eq_none_of_not_mem (d : Dict) (k : String)
    (h : k ∉ d.map Prod.fst) : Dict.get? d k = none := by
  induction d with
  | nil => rfl
  | cons hd tl ih =>
      obtain ⟨k0, v0⟩ := hd
      simp only [List.map_cons, List.mem_cons] at h
      push_neg at h
      have hne : k0 ≠ k := fun hc => h.1 hc.symm
      simp [Dict.get?, hne, ih h.2]

theorem Dict.set_eq_append (d : Dict) (k : String) (v : Val)
    (h : Dict.get? d k = none) : Dict.set d k v = d ++ [(k, v)] := by
  induction d with
  | nil => rfl
  | cons hd tl ih =>
      obtain ⟨k0, v0⟩ := hd
      by_cases h0 : k0 = k
      · simp [Dict.get?, h0] at h
      · simp only [Dict.get?, h0] at h
        simp [Dict.set, h0, ih (by simpa [beq_iff_eq, h0] using h)]

theorem Dict.get?_append_none (a b : Dict) (k : String)
    (ha : Dict.get? a k = none) (hb : Dict.get? b k = none) :
    Dict.get? (a ++ b) k = none := by
  induction a with
  | nil => simpa using hb
  | cons hd tl ih =>
      obtain ⟨k0, v0⟩ := hd
      by_cases h0 : k0 = k
      · simp [Dict.get?, h0] at ha
      · simp only [List.cons_append, Dict.get?, beq_iff_eq, h0, if_false]
        exact ih (by simpa [Dict.get?, beq_iff_eq, h0] using ha)

theorem Dict.get?_map_of_mem (g : String → Val) (l : List String)
    (hnd : l.Nodup) (t : String) (ht : t ∈ l) :
    Dict.get? (l.map (fun s => (s, g s))) t = some (g t) := by
  induction l with
  | nil => cases ht
  | cons s rest ih =>
      rcases List.mem_cons.mp ht with h | h
      · subst h
        simp [Dict.get?]
      · have hs : s ∉ rest := (List.nodup_cons.mp hnd).1
        have hne : s ≠ t := fun hc => hs (hc ▸ h)
        simp only [List.map_cons, Dict.get?, beq_iff_eq, hne, if_false]
        exact ih (List.nodup_cons.mp hnd).2 h

theorem fold_set_fresh (f : String → Val) (servers : List String) :
    ∀ (acc : Dict), servers.Nodup → (∀ s ∈ servers, Dict.get? acc s = none) →
      servers.foldl (fun a sid => Dict.set a sid (f sid)) acc
        = acc ++ servers.map (fun sid => (sid, f sid)) := by
  induction servers with
  | nil => intro acc _ _; simp
  | cons s rest ih =>
      intro acc hnd hfresh
      have hs : Dict.get? acc s = none := hfresh s (List.mem_cons_self s rest)
      have hstep : Dict.set acc s (f s) = acc ++ [(s, f s)] :=
        Dict.set_eq_append acc s (f s) hs
      have hsnotin : s ∉ rest := (List.nodup_cons.mp hnd).1
      have hfresh' : ∀ t ∈ rest, Dict.get? (acc ++ [(s, f s)]) t = none := by
        intro t ht
        have hne : s ≠ t := fun hc => hsnotin (hc ▸ ht)
        refine Dict.get?_append_none _ _ _ (hfresh t (List.mem_cons_of_mem s ht)) ?_
        simp [Dict.get?, hne]
      simp only [List.foldl_cons, hstep]
      rw [ih (acc ++ [(s, f s)]) (List.nodup_cons.mp hnd).2 hfresh']
      simp

/-! ## Facts about the normalized command result -/

theorem normalizeResult_keys (svc : Service) (o : ExecOutcome) :
    (normalizeResult svc o).map Prod.fst
      = ["success", "output", "error", "server_id", "hostname"] := by
  cases o with
  | completed rc out err =>
      by_cases h : (rc == 0) = true
      · simp [normalizeResult, h]
      · simp [normalizeResult, h]
  | timedOut => rfl
  | failed msg => rfl

theorem normalizeResult_success_bool (svc : Service) (o : ExecOutcome) :
    Dict.get? (normalizeResult svc o) "success"
      = some (.vbool (Dict.getV (normalizeResult svc o) "success").isTruthy) := by
  cases o with
  | completed rc out err =>
      by_cases h : (rc == 0) = true
      · simp [normalizeResult, h, Dict.get?, Dict.getV, Dict.getD, Val.isTruthy]
      · simp [normalizeResult, h, Dict.get?, Dict.getV, Dict.getD, Val.isTruthy]
  | timedOut => rfl
  | failed msg => rfl

/-! ## Claim theorems -/

/-- C6: every command invocation's result is normalized by exit case: zero
exit keeps the trimmed stdout with `success=true` and a null error; non-zero
exit keeps the trimmed stdout alongside the trimmed stderr with
`success=false`; a timeout yields empty output and exactly
"Command timed out"; any other execution failure carries its message.
(`normalizeResult` is a total function: no outcome raises across the
operation boundary.) -/
theorem C6_runner_normalization (svc : Service) (rc : Int)
    (stdout stderr msg : String) :
    (rc = 0 →
      Dict.get? (normalizeResult svc (.completed rc stdout stderr)) "success"
          = some (.vbool true)
      ∧ Dict.get? (normalizeResult svc (.completed rc stdout stderr)) "output"
          = some (.vstr (pyStrip stdout))
      ∧ Dict.get? (normalizeResult svc (.completed rc stdout stderr)) "error"
          = some .vnull)
    ∧ (rc ≠ 0 →
      Dict.get? (normalizeResult svc (.completed rc stdout stderr)) "success"
          = some (.vbool false)
      ∧ Dict.get? (normalizeResult svc (.completed rc stdout stderr)) "output"
          = some (.vstr (pyStrip stdout))
      ∧ Dict.get? (normalizeResult svc (.completed rc stdout stderr)) "error"
          = some (.vstr (pyStrip stderr)))
    ∧ (Dict.get? (normalizeResult svc .timedOut) "success" = some (.vbool false)
      ∧ Dict.get? (normalizeResult svc .timedOut) "output" = some (.vstr "")
      ∧ Dict.get? (normalizeResult svc .timedOut) "error"
          = some (.vstr "Command timed out"))
    ∧ (Dict.get? (normalizeResult svc (.failed msg)) "success" = some (.vbool false)
      ∧ Dict.get? (normalizeResult svc (.failed msg)) "error" = some (.vstr msg)) := by
  refine ⟨fun h => ?_, fun h => ?_, ⟨rfl, rfl, rfl⟩, ⟨rfl, rfl⟩⟩
  · subst h
    exact ⟨rfl, rfl, rfl⟩
  · have hb : (rc == 0) = false := by simpa using h
    simp only [normalizeResult, hb]
    exact ⟨rfl, rfl, rfl⟩

/-- Witness for C6 at concrete inputs (successful exit, failing exit). -/
theorem C6_runner_normalization_witness :
    Dict.get? (normalizeResult ⟨some "s1", ⟨"h1", "u1", "p1"⟩⟩
        (.completed 0 "ok" "")) "success" = some (.vbool true)
    ∧ Dict.get? (normalizeResult ⟨some "s1", ⟨"h1", "u1", "p1"⟩⟩
        (.completed 1 "partial" "boom")) "error" = some (.vstr (pyStrip "boom")) :=
  ⟨((C6_runner_normalization ⟨some "s1", ⟨"h1", "u1", "p1"⟩⟩ 0 "ok" "" "m").1
      rfl).1,
   ((C6_runner_normalization ⟨some "s1", ⟨"h1", "u1", "p1"⟩⟩ 1 "partial" "boom"
      "m").2.1 (by decide)).2.2⟩

/-- C8: the power state derived by `get_power_status` is "on" whenever the
command's output contains "power is on" case-insensitively, "off" whenever
it contains "power is off" (and not "power is on"), and "unknown" for any
other text; the parse is a total function, raising no exception. -/
theorem C8_power_state_parsing (svc : Service) (runner : Runner)
    (stdout stderr : String)
    (h : runner "chassis power status" 30 = .completed 0 stdout stderr) :
    (strContains (pyLower (pyStrip stdout)) "power is on" = true →
      Dict.get? (getPowerStatus svc runner).1 "power_state" = some (.vstr "on"))
    ∧ (strContains (pyLower (pyStrip stdout)) "power is on" = false →
       strContains (pyLower (pyStrip stdout)) "power is off" = true →
      Dict.get? (getPowerStatus svc runner).1 "power_state" = some (.vstr "off"))
    ∧ (strContains (pyLower (pyStrip stdout)) "power is on" = false →
       strContains (pyLower (pyStrip stdout)) "power is off" = false →
      Dict.get? (getPowerStatus svc runner).1 "power_state"
        = some (.vstr "unknown")) := by
  refine ⟨fun h1 => ?_, fun h1 h2 => ?_, fun h1 h2 => ?_⟩ <;>
    simp [getPowerStatus, execCmd, normalizeResult, h, Dict.getV, Dict.getD,
      Dict.get?, Val.isTruthy, Val.asStr, h1, Dict.get?_set] <;>
    simp [h2, Dict.get?_set]

/-- C7: SEL parsing truncates the raw lines to `limit` BEFORE parsing, so
blank or unparsable lines among the first `limit` consume the budget and no
later line can contribute; among the kept lines exactly the non-blank ones
splitting on "|" into at least 4 fields yield an entry, others are dropped
without raising. -/
theorem C7_sel_limit_before_parsing (output : String) (limit : Nat) :
    parseSelOutput output limit
      = ((pySplit output "\n").take limit).filterMap parseSelLine
    ∧ (parseSelOutput output limit).length ≤ limit
    ∧ (∀ line, (parseSelLine line).isSome = true ↔
        (pyStrip line ≠ "" ∧ 4 ≤ (pySplit line "|").length)) := by
  refine ⟨rfl, ?_, ?_⟩
  · calc (parseSelOutput output limit).length
        ≤ ((pySplit output "\n").take limit).length :=
          List.length_filterMap_le _ _
      _ ≤ limit := List.length_take_le _ _
  · intro line
    by_cases h1 : pyStrip line = ""
    · simp [parseSelLine, h1]
    · by_cases h2 : 4 ≤ (pySplit line "|").length
      · simp [parseSelLine, h1, h2, List.length_map]
      · simp [parseSelLine, h1, h2, List.length_map]

/-- Witness for C7: 10 raw lines with blanks among the first five; only the
first five lines are considered, and the entry count stays within the
limit. -/
theorem C7_sel_limit_before_parsing_witness :
    (parseSelOutput
        "1|d1|t1|s1|e1|v1\n\n \n\n\n2|d2|t2|s2|e2|v2\n3|d3|t3|s3|e3|v3\nx\ny\nz"
        5).length ≤ 5
    ∧ parseSelOutput
        "1|d1|t1|s1|e1|v1\n\n \n\n\n2|d2|t2|s2|e2|v2\n3|d3|t3|s3|e3|v3\nx\ny\nz"
        5
      = [[("id", .vstr "1"), ("timestamp", .vstr "d1 t1"), ("sensor", .vstr "s1"),
          ("event", .vstr "e1"), ("value", .vstr "v1")]] :=
  ⟨(C7_sel_limit_before_parsing
      "1|d1|t1|s1|e1|v1\n\n \n\n\n2|d2|t2|s2|e2|v2\n3|d3|t3|s3|e3|v3\nx\ny\nz"
      5).2.1, rfl⟩

/-- `execCmd` always reports success as an honest boolean. -/
theorem execCmd_success_bool (svc : Service) (runner : Runner)
    (c : String) (t : Nat) :
    Dict.get? (execCmd svc runner c t).1 "success"
      = some (.vbool (Dict.getV (execCmd svc runner c t).1 "success").isTruthy) :=
  normalizeResult_success_bool svc (runner c t)

/-- C9: `get_system_info` issues exactly the four sub-commands (FRU
inventory, BMC info, chassis status, FRU print), returns all four
sub-results in `system_info` regardless of failures, and reports overall
success iff all four sub-results succeeded. -/
theorem C9_system_info_conjunction (svc : Service) (runner : Runner) :
    ((getSystemInfo svc runner).2).map Prod.fst
        = ["fru", "bmc info", "chassis status", "fru print"]
    ∧ Dict.get? (getSystemInfo svc runner).1 "system_info"
        = some (.vdict
            [("fru", .vdict (execCmd svc runner "fru" 30).1),
             ("bmc_info", .vdict (execCmd svc runner "bmc info" 30).1),
             ("chassis_status", .vdict (execCmd svc runner "chassis status" 30).1),
             ("system_info", .vdict (execCmd svc runner "fru print" 30).1)])
    ∧ (Dict.get? (getSystemInfo svc runner).1 "success" = some (.vbool true) ↔
        (Dict.get? (execCmd svc runner "fru" 30).1 "success" = some (.vbool true)
        ∧ Dict.get? (execCmd svc runner "bmc info" 30).1 "success"
            = some (.vbool true)
        ∧ Dict.get? (execCmd svc runner "chassis status" 30).1 "success"
            = some (.vbool true)
        ∧ Dict.get? (execCmd svc runner "fru print" 30).1 "success"
            = some (.vbool true))) := by
  refine ⟨rfl, rfl, ?_⟩
  rw [execCmd_success_bool svc runner "fru" 30,
      execCmd_success_bool svc runner "bmc info" 30,
      execCmd_success_bool svc runner "chassis status" 30,
      execCmd_success_bool svc runner "fru print" 30]
  have hL : Dict.get? (getSystemInfo svc runner).1 "success"
      = some (.vbool
          ((Dict.getV (execCmd svc runner "fru" 30).1 "success").isTruthy
          && (Dict.getV (execCmd svc runner "bmc info" 30).1 "success").isTruthy
          && (Dict.getV (execCmd svc runner "chassis status" 30).1
                "success").isTruthy
          && (Dict.getV (execCmd svc runner "fru print" 30).1
                "success").isTruthy)) := rfl
  rw [hL]
  simp [Bool.and_eq_true, and_assoc]

/-- C10: each parsing operation attaches its derived field exactly when the
underlying command succeeded, and on failure returns the raw failure result
unchanged with no derived field. -/
theorem C10_derived_fields_iff_success (svc : Service) (runner : Runner)
    (limit : Nat) :
    ((Dict.get? (getPowerStatus svc runner).1 "power_state").isSome
        = (Dict.getV (execCmd svc runner "chassis power status" 30).1
            "success").isTruthy
      ∧ ((Dict.getV (execCmd svc runner "chassis power status" 30).1
            "success").isTruthy = false →
          (getPowerStatus svc runner).1
            = (execCmd svc runner "chassis power status" 30).1))
    ∧ ((Dict.get? (getSensorData svc runner).1 "sensors").isSome
        = (Dict.getV (execCmd svc runner "sensor" 45).1 "success").isTruthy
      ∧ (Dict.get? (getSensorData svc runner).1 "sensor_count").isSome
        = (Dict.getV (execCmd svc runner "sensor" 45).1 "success").isTruthy
      ∧ ((Dict.getV (execCmd svc runner "sensor" 45).1 "success").isTruthy
          = false →
          (getSensorData svc runner).1 = (execCmd svc runner "sensor" 45).1))
    ∧ ((Dict.get? (getSystemEventLog svc runner limit).1 "events").isSome
        = (Dict.getV (execCmd svc runner "sel list" 30).1 "success").isTruthy
      ∧ (Dict.get? (getSystemEventLog svc runner limit).1 "event_count").isSome
        = (Dict.getV (execCmd svc runner "sel list" 30).1 "success").isTruthy
      ∧ ((Dict.getV (execCmd svc runner "sel list" 30).1 "success").isTruthy
          = false →
          (getSystemEventLog svc runner limit).1
            = (execCmd svc runner "sel list" 30).1))
    ∧ ((Dict.get? (getBootDevice svc runner).1 "boot_device").isSome
        = (Dict.getV (execCmd svc runner "chassis bootparam get 5" 30).1
            "success").isTruthy
      ∧ ((Dict.getV (execCmd svc runner "chassis bootparam get 5" 30).1
            "success").isTruthy = false →
          (getBootDevice svc runner).1
            = (execCmd svc runner "chassis bootparam get 5" 30).1)) := by
  have hnone : ∀ (o : ExecOutcome) (k : String),
      k ∈ (["power_state", "sensors", "sensor_count", "events", "event_count",
            "boot_device"] : List String) →
      Dict.get? (normalizeResult svc o) k = none := by
    intro o k hk
    refine Dict.get?_eq_none_of_not_mem _ _ ?_
    rw [normalizeResult_keys]
    fin_cases hk <;> decide
  simp only [execCmd]
  refine ⟨⟨?_, ?_⟩, ⟨?_, ?_, ?_⟩, ⟨?_, ?_, ?_⟩, ⟨?_, ?_⟩⟩
  · by_cases hs : (Dict.getV (normalizeResult svc
        (runner "chassis power status" 30)) "success").isTruthy = true
    · simp [getPowerStatus, execCmd, hs, Dict.get?_set]
    · simp only [Bool.not_eq_true] at hs
      have hn := hnone (runner "chassis power status" 30) "power_state" (by simp)
      simp [getPowerStatus, execCmd, hs, hn]
  · intro hs
    simp [getPowerStatus, execCmd, hs]
  · by_cases hs : (Dict.getV (normalizeResult svc
        (runner "sensor" 45)) "success").isTruthy = true
    · simp [getSensorData, execCmd, hs, Dict.get?_set]
    · simp only [Bool.not_eq_true] at hs
      have hn := hnone (runner "sensor" 45) "sensors" (by simp)
      simp [getSensorData, execCmd, hs, hn]
  · by_cases hs : (Dict.getV (normalizeResult svc
        (runner "sensor" 45)) "success").isTruthy = true
    · simp [getSensorData, execCmd, hs, Dict.get?_set]
    · simp only [Bool.not_eq_true] at hs
      have hn := hnone (runner "sensor" 45) "sensor_count" (by simp)
      simp [getSensorData, execCmd, hs, hn]
  · intro hs
    simp [getSensorData, execCmd, hs]
  · by_cases hs : (Dict.getV (normalizeResult svc
        (runner "sel list" 30)) "success").isTruthy = true
    · simp [getSystemEventLog, execCmd, hs, Dict.get?_set]
    · simp only [Bool.not_eq_true] at hs
      have hn := hnone (runner "sel list" 30) "events" (by simp)
      simp [getSystemEventLog, execCmd, hs, hn]
  · by_cases hs : (Dict.getV (normalizeResult svc
        (runner "sel list" 30)) "success").isTruthy = true
    · simp [getSystemEventLog, execCmd, hs, Dict.get?_set]
    · simp only [Bool.not_eq_true] at hs
      have hn := hnone (runner "sel list" 30) "event_count" (by simp)
      simp [getSystemEventLog, execCmd, hs, hn]
  · intro hs
    simp [getSystemEventLog, execCmd, hs]
  · by_cases hs : (Dict.getV (normalizeResult svc
        (runner "chassis bootparam get 5" 30)) "success").isTruthy = true
    · simp [getBootDevice, execCmd, hs, Dict.get?_set]
    · simp only [Bool.not_eq_true] at hs
      have hn := hnone (runner "chassis bootparam get 5" 30) "boot_device" (by simp)
      simp [getBootDevice, execCmd, hs, hn]
  · intro hs
    simp [getBootDevice, execCmd, hs]

/-- Witness for C10: a timed-out command leaves every operation's result as
the raw failure, with no derived field. -/
theorem C10_derived_fields_iff_success_witness :
    (getPowerStatus ⟨some "s1", ⟨"h1", "u1", "p1"⟩⟩ (fun _ _ => .timedOut)).1
      = (execCmd ⟨some "s1", ⟨"h1", "u1", "p1"⟩⟩ (fun _ _ => .timedOut)
          "chassis power status" 30).1
    ∧ (getBootDevice ⟨some "s1", ⟨"h1", "u1", "p1"⟩⟩ (fun _ _ => .timedOut)).1
      = (execCmd ⟨some "s1", ⟨"h1", "u1", "p1"⟩⟩ (fun _ _ => .timedOut)
          "chassis bootparam get 5" 30).1 :=
  ⟨(C10_derived_fields_iff_success ⟨some "s1", ⟨"h1", "u1", "p1"⟩⟩
      (fun _ _ => .timedOut) 50).1.2 rfl,
   (C10_derived_fields_iff_success ⟨some "s1", ⟨"h1", "u1", "p1"⟩⟩
      (fun _ _ => .timedOut) 50).2.2.2.2 rfl⟩

/-- Witness for C8: a concrete "Chassis Power is on" output parses to "on". -/
theorem C8_power_state_parsing_witness :
    Dict.get? (getPowerStatus ⟨some "s1", ⟨"h1", "u1", "p1"⟩⟩
        (fun _ _ => .completed 0 "Chassis Power is on" "")).1 "power_state"
      = some (.vstr "on") :=
  (C8_power_state_parsing ⟨some "s1", ⟨"h1", "u1", "p1"⟩⟩
      (fun _ _ => .completed 0 "Chassis Power is on" "") "Chassis Power is on" ""
      rfl).1 (by decide)

/-- C3 counterexample: `setBootDevice("PXE")` passes validation but the
subprocess runner is invoked with the ORIGINAL device string "PXE", not the
lower-cased "pxe" the claim states. -/
theorem C3_counterexample :
    (setBootDevice ⟨some "s1", ⟨"h1", "u1", "p1"⟩⟩
        (fun _ _ => .completed 0 "" "") "PXE" false).2
      = [("chassis bootdev PXE options=efiboot", 30)]
    ∧ (setBootDevice ⟨some "s1", ⟨"h1", "u1", "p1"⟩⟩
        (fun _ _ => .completed 0 "" "") "PXE" false).2
      ≠ [("chassis bootdev pxe options=efiboot", 30)] := by
  constructor
  · rfl
  · decide

/-- C3 amended: a device whose lower-casing is outside
{pxe, disk, cdrom, bios, floppy, safe} yields a local success=false
validation result with no runner invocation; a device whose lower-casing is
in the set invokes the runner exactly once, with the command built from the
device string as given (original casing preserved). -/
theorem C3_boot_device_validation (svc : Service) (runner : Runner)
    (device : String) (persistent : Bool) :
    if validDevices.contains (pyLower device) then
      (setBootDevice svc runner device persistent).2
        = [("chassis bootdev " ++ device ++ " " ++
            (if persistent then "options=persistent" else "options=efiboot"), 30)]
    else
      Dict.get? (setBootDevice svc runner device persistent).1 "success"
          = some (.vbool false)
      ∧ (setBootDevice svc runner device persistent).2 = [] := by
  by_cases h : validDevices.contains (pyLower device) = true
  · have hm : pyLower device ∈ validDevices := by simpa using h
    simp only [h, if_true]
    by_cases hp : persistent = true
    · simp [setBootDevice, execCmd, hm, hp]
    · simp only [Bool.not_eq_true] at hp
      simp [setBootDevice, execCmd, hm, hp]
  · have hm : pyLower device ∉ validDevices := by simpa using h
    simp only [h, Bool.false_eq_true, if_false]
    simp [setBootDevice, hm, Dict.get?]

/-- C4 (code bug): a single-server configuration advertises the literal
server id "default" through `get_available_servers`, yet constructing the
per-server service for "default" fails with ValueError, because "default"
is not a key of the flat single-server config dict. Every fleet broadcast
in single-server mode therefore dispatches to an id its own constructor
rejects. -/
theorem C4_default_lookup_bug (h u p : String) :
    getAvailableServers (singleConfig h u p) = ["default"]
    ∧ serviceInit (singleConfig h u p) (some "default")
        = .error "Server \x27default\x27 not found in configuration"
    ∧ serviceInit (singleConfig h u p) none
        = .ok ⟨none, .vdict (singleConfig h u p)⟩ := by
  exact ⟨rfl, rfl, rfl⟩

/-- C5 counterexample: a 5-part entry `s1:h:u:p:extra` is NOT skipped — it
yields a registry entry built from its first four parts, contradicting the
claim that every part count other than 4 and 2 contributes no entry. -/
theorem C5_counterexample :
    parseMultiServerEnv none none "s1:h:u:p:extra"
      = [("s1", .vdict [("hostname", .vstr "h"), ("username", .vstr "u"),
                        ("password", .vstr "p")])]
    ∧ parseMultiServerEnv none none "s1:h:u:p:extra" ≠ [] := by
  constructor
  · rfl
  · rw [show parseMultiServerEnv none none "s1:h:u:p:extra"
        = [("s1", .vdict [("hostname", .vstr "h"), ("username", .vstr "u"),
                          ("password", .vstr "p")])] from rfl]
    simp

/-- C5 amended: an entry with AT LEAST 4 colon-separated parts yields a
registry entry from its first four parts (extras ignored); an entry with
exactly 2 parts yields an entry whose credentials fall back to the
single-server environment values and then to "admin"/"admin"; entries with
1 or 3 parts are silently skipped; the registry is the left fold of this
step over the comma-separated entries. -/
theorem C5_multi_env_parsing (ipmiUser ipmiPassword : Option String)
    (servers : Dict) (entry hosts : String) :
    (4 ≤ (pySplit (pyStrip entry) ":").length →
      processHostEntry ipmiUser ipmiPassword servers entry
        = Dict.set servers ((pySplit (pyStrip entry) ":").getD 0 "")
            (.vdict [("hostname", .vstr ((pySplit (pyStrip entry) ":").getD 1 "")),
                     ("username", .vstr ((pySplit (pyStrip entry) ":").getD 2 "")),
                     ("password", .vstr ((pySplit (pyStrip entry) ":").getD 3 ""))]))
    ∧ ((pySplit (pyStrip entry) ":").length = 2 →
      processHostEntry ipmiUser ipmiPassword servers entry
        = Dict.set servers ((pySplit (pyStrip entry) ":").getD 0 "")
            (.vdict [("hostname", .vstr ((pySplit (pyStrip entry) ":").getD 1 "")),
                     ("username", .vstr (ipmiUser.getD "admin")),
                     ("password", .vstr (ipmiPassword.getD "admin"))]))
    ∧ ((pySplit (pyStrip entry) ":").length = 1
        ∨ (pySplit (pyStrip entry) ":").length = 3 →
      processHostEntry ipmiUser ipmiPassword servers entry = servers)
    ∧ parseMultiServerEnv ipmiUser ipmiPassword hosts
        = (pySplit hosts ",").foldl (processHostEntry ipmiUser ipmiPassword) [] := by
  refine ⟨fun h => ?_, fun h => ?_, fun h => ?_, rfl⟩
  · simp [processHostEntry, h]
  · have h4 : ¬ 4 ≤ (pySplit (pyStrip entry) ":").length := by omega
    simp [processHostEntry, h4, h]
  · have h4 : ¬ 4 ≤ (pySplit (pyStrip entry) ":").length := by
      rcases h with h | h <;> omega
    have h2 : ((pySplit (pyStrip entry) ":").length == 2) = false := by
      rcases h with h | h <;> simp [h]
    simp [processHostEntry, h4, h2]

/-- Witness for C5 at one entry of each shape: 4 parts, 2 parts with both
fallback layers, 1 part, 3 parts. -/
theorem C5_multi_env_parsing_witness :
    processHostEntry none none [] "a:h:x:y"
      = [("a", .vdict [("hostname", .vstr "h"), ("username", .vstr "x"),
                       ("password", .vstr "y")])]
    ∧ processHostEntry (some "U") (some "P") [] "b:h"
      = [("b", .vdict [("hostname", .vstr "h"), ("username", .vstr "U"),
                       ("password", .vstr "P")])]
    ∧ processHostEntry none none [] "b:h"
      = [("b", .vdict [("hostname", .vstr "h"), ("username", .vstr "admin"),
                       ("password", .vstr "admin")])]
    ∧ processHostEntry none none [] "c" = []
    ∧ processHostEntry none none [] "d:h:u" = [] := by
  refine ⟨?_, ?_, ?_, ?_, ?_⟩
  · rw [(C5_multi_env_parsing none none [] "a:h:x:y" "").1 (by decide)]; rfl
  · rw [(C5_multi_env_parsing (some "U") (some "P") [] "b:h" "").2.1 (by decide)]; rfl
  · rw [(C5_multi_env_parsing none none [] "b:h" "").2.1 (by decide)]; rfl
  · rw [(C5_multi_env_parsing none none [] "c" "").2.2.1 (by decide)]
  · rw [(C5_multi_env_parsing none none [] "d:h:u" "").2.2.1 (by decide)]

/-- A result dict carries both attribution fields. -/
def hasIds (d : Dict) : Prop :=
  d.containsKey "server_id" = true ∧ d.containsKey "hostname" = true

theorem containsKey_set (d : Dict) (k' k : String) (v : Val)
    (h : d.containsKey k = true) : (Dict.set d k' v).containsKey k = true := by
  unfold Dict.containsKey at *
  rw [Dict.get?_set]
  by_cases he : k' == k
  · simp [he]
  · simp [he, h]

theorem hasIds_set (d : Dict) (k : String) (v : Val) (h : hasIds d) :
    hasIds (Dict.set d k v) :=
  ⟨containsKey_set d k "server_id" v h.1, containsKey_set d k "hostname" v h.2⟩

theorem hasIds_normalizeResult (svc : Service) (o : ExecOutcome) :
    hasIds (normalizeResult svc o) := by
  cases o with
  | completed rc out err =>
      by_cases h : (rc == 0) = true
      · simp [normalizeResult, h, hasIds, Dict.containsKey, Dict.get?]
      · simp only [Bool.not_eq_true] at h
        simp [normalizeResult, h, hasIds, Dict.containsKey, Dict.get?]
  | timedOut => exact ⟨rfl, rfl⟩
  | failed m => exact ⟨rfl, rfl⟩

/-- C1 amended: every per-server operation result carries `server_id` and
`hostname` — at top level for the eleven runner-backed operations and,
whenever the chassis-status probe fails, for `check_health`; whenever that
probe succeeds, `check_health`'s result carries neither field at top level
and instead carries both inside its nested `details` mapping; and the
per-server fleet results synthesized for an unsupported operation name or a
caught exception carry `server_id` but NOT `hostname`, while a supported,
non-raising dispatch passes the operation's own result through unchanged. -/
theorem C1_attribution_fields (svc : Service) (runner : Runner)
    (force persistent supported : Bool) (device : String) (limit : Nat)
    (operation sid msg : String) (inv : Except String Dict) (d : Dict) :
    hasIds (powerOn svc runner).1
    ∧ hasIds (powerOff svc runner force).1
    ∧ hasIds (powerReset svc runner).1
    ∧ hasIds (getPowerStatus svc runner).1
    ∧ hasIds (getSystemInfo svc runner).1
    ∧ hasIds (getSensorData svc runner).1
    ∧ hasIds (getSystemEventLog svc runner limit).1
    ∧ hasIds (clearSystemEventLog svc runner).1
    ∧ hasIds (getSelInfo svc runner).1
    ∧ hasIds (getBootDevice svc runner).1
    ∧ hasIds (setBootDevice svc runner device persistent).1
    ∧ ((Dict.getV (normalizeResult svc (runner "chassis status" 30))
          "success").isTruthy = false → hasIds (checkHealth svc runner).1)
    ∧ ((Dict.getV (normalizeResult svc (runner "chassis status" 30))
          "success").isTruthy = true →
        (checkHealth svc runner).1.containsKey "server_id" = false
        ∧ (checkHealth svc runner).1.containsKey "hostname" = false
        ∧ ∃ dt, Dict.get? (checkHealth svc runner).1 "details"
            = some (.vdict dt) ∧ hasIds dt)
    ∧ ((exnResult msg sid).containsKey "server_id" = true
       ∧ (exnResult msg sid).containsKey "hostname" = false)
    ∧ ((unsupportedResult operation sid).containsKey "server_id" = true
       ∧ (unsupportedResult operation sid).containsKey "hostname" = false)
    ∧ dispatchOne operation supported (.error msg) sid = exnResult msg sid
    ∧ dispatchOne operation false (.ok inv) sid = unsupportedResult operation sid
    ∧ dispatchOne operation true (.ok (.ok d)) sid = d := by
  have hexec : ∀ (c : String) (t : Nat), hasIds (execCmd svc runner c t).1 :=
    fun c t => hasIds_normalizeResult svc (runner c t)
  refine ⟨hexec _ _, ?_, hexec _ _, ?_, ⟨rfl, rfl⟩, ?_, ?_, hexec _ _, hexec _ _,
    ?_, ?_, ?_, ?_, ⟨rfl, rfl⟩, ⟨rfl, rfl⟩, rfl, rfl, rfl⟩
  · cases force <;> simp [powerOff] <;> exact hexec _ _
  · by_cases hs : (Dict.getV (normalizeResult svc
        (runner "chassis power status" 30)) "success").isTruthy = true
    · simp only [getPowerStatus, execCmd, hs, if_true]
      exact hasIds_set _ _ _ (hasIds_normalizeResult svc _)
    · simp only [Bool.not_eq_true] at hs
      simp only [getPowerStatus, execCmd, hs, Bool.false_eq_true, if_false]
      exact hasIds_normalizeResult svc _
  · by_cases hs : (Dict.getV (normalizeResult svc
        (runner "sensor" 45)) "success").isTruthy = true
    · simp only [getSensorData, execCmd, hs, if_true]
      exact hasIds_set _ _ _ (hasIds_set _ _ _ (hasIds_normalizeResult svc _))
    · simp only [Bool.not_eq_true] at hs
      simp only [getSensorData, execCmd, hs, Bool.false_eq_true, if_false]
      exact hasIds_normalizeResult svc _
  · by_cases hs : (Dict.getV (normalizeResult svc
        (runner "sel list" 30)) "success").isTruthy = true
    · simp only [getSystemEventLog, execCmd, hs, if_true]
      exact hasIds_set _ _ _ (hasIds_set _ _ _ (hasIds_normalizeResult svc _))
    · simp only [Bool.not_eq_true] at hs
      simp only [getSystemEventLog, execCmd, hs, Bool.false_eq_true, if_false]
      exact hasIds_normalizeResult svc _
  · by_cases hs : (Dict.getV (normalizeResult svc
        (runner "chassis bootparam get 5" 30)) "success").isTruthy = true
    · simp only [getBootDevice, execCmd, hs, if_true]
      exact hasIds_set _ _ _ (hasIds_normalizeResult svc _)
    · simp only [Bool.not_eq_true] at hs
      simp only [getBootDevice, execCmd, hs, Bool.false_eq_true, if_false]
      exact hasIds_normalizeResult svc _
  · by_cases hv : validDevices.contains (pyLower device) = true
    · simp only [setBootDevice, hv, Bool.not_true, Bool.false_eq_true, if_false]
      exact hexec _ _
    · simp only [Bool.not_eq_true] at hv
      simp only [setBootDevice, hv, Bool.not_false, if_true]
      exact ⟨rfl, rfl⟩
  · intro hs
    simp only [checkHealth, execCmd, hs, Bool.false_eq_true, if_false]
    exact ⟨rfl, rfl⟩
  · intro hs
    simp only [checkHealth, execCmd, hs, if_true]
    by_cases hp : (Dict.getV (getPowerStatus svc runner).1
        "success").isTruthy = true
    · simp only [hp, if_true]
      exact ⟨rfl, rfl, _, rfl, hasIds_set _ _ _ ⟨rfl, rfl⟩⟩
    · simp only [Bool.not_eq_true] at hp
      simp only [hp, Bool.false_eq_true, if_false]
      exact ⟨rfl, rfl, _, rfl, ⟨rfl, rfl⟩⟩

/-- C1 counterexample: with a healthy runner, `check_health`'s result has no
top-level `server_id`; and in a fleet broadcast of an unsupported operation
name the synthesized per-server result exists but has no `hostname` —
refuting the claim that every such result carries both fields. -/
theorem C1_counterexample :
    (checkHealth ⟨some "s1", ⟨"h1", "u1", "p1"⟩⟩
        (fun _ _ => .completed 0 "ok" "")).1.containsKey "server_id" = false
    ∧ (Val.asDict (Dict.getV (executeOnAllServers "frobnicate" false
        (fun _ => .ok (.ok [])) ["s1"]) "results")).containsKey "s1" = true
    ∧ (Val.asDict (Dict.getV (Val.asDict (Dict.getV (executeOnAllServers
        "frobnicate" false (fun _ => .ok (.ok [])) ["s1"]) "results"))
        "s1")).containsKey "hostname" = false := by
  exact ⟨rfl, rfl, rfl⟩

/-- The per-server results mapping of a fleet broadcast is exactly one entry
per registered server, in registry order. -/
theorem executeOnAllServers_results (operation : String) (supported : Bool)
    (behavior : String → Except String (Except String Dict))
    (servers : List String) (hnd : servers.Nodup) :
    Val.asDict (Dict.getV (executeOnAllServers operation supported behavior
        servers) "results")
      = servers.map (fun sid =>
          (sid, Val.vdict (dispatchOne operation supported (behavior sid) sid))) := by
  have hfold := fold_set_fresh
    (fun sid => Val.vdict (dispatchOne operation supported (behavior sid) sid))
    servers [] hnd (fun s _ => rfl)
  show servers.foldl (fun acc sid =>
      Dict.set acc sid (.vdict (dispatchOne operation supported (behavior sid) sid))) []
    = _
  simpa using hfold

/-- C2: a fleet broadcast returns exactly one result per registered server
id; `total_servers` is the registry size; `successful` counts the truthy
per-server success flags; a per-server exception (constructing the service
or invoking the operation) becomes that server's `success=false` result
carrying the exception message; and every server's result is a function of
its own behavior alone — erasing another server from the registry leaves it
unchanged. -/
theorem C2_fleet_isolation (operation : String) (supported : Bool)
    (behavior : String → Except String (Except String Dict))
    (servers : List String) (hnd : servers.Nodup) :
    Val.asDict (Dict.getV (executeOnAllServers operation supported behavior
        servers) "results")
      = servers.map (fun sid =>
          (sid, Val.vdict (dispatchOne operation supported (behavior sid) sid)))
    ∧ Dict.get? (executeOnAllServers operation supported behavior servers)
        "total_servers" = some (.vnat servers.length)
    ∧ Dict.get? (executeOnAllServers operation supported behavior servers)
        "successful"
      = some (.vnat ((Val.asDict (Dict.getV (executeOnAllServers operation
          supported behavior servers) "results")).countP (fun kv =>
            (Dict.getD kv.2.asDict "success" (.vbool false)).isTruthy)))
    ∧ (∀ sid ∈ servers, ∀ msg, behavior sid = .error msg →
        Dict.get? (Val.asDict (Dict.getV (executeOnAllServers operation
            supported behavior servers) "results")) sid
          = some (.vdict (exnResult msg sid))
        ∧ Dict.get? (exnResult msg sid) "success" = some (.vbool false)
        ∧ Dict.get? (exnResult msg sid) "error" = some (.vstr msg))
    ∧ (∀ sid t, t ∈ servers → t ≠ sid →
        Dict.get? (Val.asDict (Dict.getV (executeOnAllServers operation
            supported behavior (servers.erase sid)) "results")) t
          = Dict.get? (Val.asDict (Dict.getV (executeOnAllServers operation
              supported behavior servers) "results")) t) := by
  refine ⟨executeOnAllServers_results operation supported behavior servers hnd,
    rfl, rfl, ?_, ?_⟩
  · intro sid hsid msg hmsg
    refine ⟨?_, rfl, rfl⟩
    rw [executeOnAllServers_results operation supported behavior servers hnd,
      Dict.get?_map_of_mem _ servers hnd sid hsid, hmsg]
    rfl
  · intro sid t ht hne
    rw [executeOnAllServers_results operation supported behavior servers hnd,
      executeOnAllServers_results operation supported behavior (servers.erase sid)
        (hnd.erase sid),
      Dict.get?_map_of_mem _ servers hnd t ht,
      Dict.get?_map_of_mem _ (servers.erase sid) (hnd.erase sid) t
        ((List.mem_erase_of_ne hne).mpr ht)]

/-- Witness for C2: the spec's own example — three servers, the second's
invocation raises "boom": 3 total, 2 successful, server 2 carries the
message, servers 1 and 3 are untouched. -/
theorem C2_fleet_isolation_witness :
    Dict.get? (executeOnAllServers "power_on" true
        (fun sid => if sid == "s2" then .error "boom"
          else .ok (.ok [("success", .vbool true)]))
        ["s1", "s2", "s3"]) "total_servers" = some (.vnat 3)
    ∧ Dict.get? (executeOnAllServers "power_on" true
        (fun sid => if sid == "s2" then .error "boom"
          else .ok (.ok [("success", .vbool true)]))
        ["s1", "s2", "s3"]) "successful" = some (.vnat 2)
    ∧ Dict.get? (Val.asDict (Dict.getV (executeOnAllServers "power_on" true
        (fun sid => if sid == "s2" then .error "boom"
          else .ok (.ok [("success", .vbool true)]))
        ["s1", "s2", "s3"]) "results")) "s2"
      = some (.vdict (exnResult "boom" "s2")) := by
  have h := C2_fleet_isolation "power_on" true
    (fun sid => if sid == "s2" then .error "boom"
      else .ok (.ok [("success", .vbool true)]))
    ["s1", "s2", "s3"] (by decide)
  refine ⟨h.2.1, ?_, (h.2.2.2.1 "s2" (by decide) "boom" rfl).1⟩
  rw [h.2.2.1]
  rfl

/-- Witness for C3: "usb" fails validation locally with no runner call;
"PXE" invokes the runner once with the original-cased device. -/
theorem C3_boot_device_validation_witness :
    Dict.get? (setBootDevice ⟨some "s1", ⟨"h1", "u1", "p1"⟩⟩
        (fun _ _ => .completed 0 "" "") "usb" false).1 "success"
      = some (.vbool false)
    ∧ (setBootDevice ⟨some "s1", ⟨"h1", "u1", "p1"⟩⟩
        (fun _ _ => .completed 0 "" "") "usb" false).2 = []
    ∧ (setBootDevice ⟨some "s1", ⟨"h1", "u1", "p1"⟩⟩
        (fun _ _ => .completed 0 "" "") "PXE" false).2
      = [("chassis bootdev PXE options=efiboot", 30)] := by
  have h1 : Dict.get? (setBootDevice ⟨some "s1", ⟨"h1", "u1", "p1"⟩⟩
        (fun _ _ => .completed 0 "" "") "usb" false).1 "success"
        = some (.vbool false)
      ∧ (setBootDevice ⟨some "s1", ⟨"h1", "u1", "p1"⟩⟩
        (fun _ _ => .completed 0 "" "") "usb" false).2 = [] :=
    C3_boot_device_validation ⟨some "s1", ⟨"h1", "u1", "p1"⟩⟩
      (fun _ _ => .completed 0 "" "") "usb" false
  have h2 : (setBootDevice ⟨some "s1", ⟨"h1", "u1", "p1"⟩⟩
        (fun _ _ => .completed 0 "" "") "PXE" false).2
        = [("chassis bootdev " ++ "PXE" ++ " " ++ "options=efiboot", 30)] :=
    C3_boot_device_validation ⟨some "s1", ⟨"h1", "u1", "p1"⟩⟩
      (fun _ _ => .completed 0 "" "") "PXE" false
  exact ⟨h1.1, h1.2, h2⟩

/-- Witness for C9: with a runner succeeding on all four sub-commands, the
overall success is true and exactly the four sub-commands were issued. -/
theorem C9_system_info_conjunction_witness :
    Dict.get? (getSystemInfo ⟨some "s1", ⟨"h1", "u1", "p1"⟩⟩
        (fun _ _ => .completed 0 "ok" "")).1 "success" = some (.vbool true)
    ∧ ((getSystemInfo ⟨some "s1", ⟨"h1", "u1", "p1"⟩⟩
        (fun _ _ => .completed 0 "ok" "")).2).map Prod.fst
      = ["fru", "bmc info", "chassis status", "fru print"] := by
  have h := C9_system_info_conjunction ⟨some "s1", ⟨"h1", "u1", "p1"⟩⟩
    (fun _ _ => .completed 0 "ok" "")
  exact ⟨h.2.2.mpr ⟨rfl, rfl, rfl, rfl⟩, h.1⟩

/-- Witness for C1 (amended) at concrete services and runners, exercising
both `check_health` branches: a timed-out probe keeps the ids at top level,
a healthy probe drops them from the top level and nests them in details. -/
theorem C1_attribution_fields_witness :
    hasIds (powerOn ⟨some "s1", ⟨"h1", "u1", "p1"⟩⟩
        (fun _ _ => .completed 0 "ok" "")).1
    ∧ (exnResult "boom" "s2").containsKey "hostname" = false
    ∧ hasIds (checkHealth ⟨some "s1", ⟨"h1", "u1", "p1"⟩⟩
        (fun _ _ => .timedOut)).1
    ∧ (checkHealth ⟨some "s1", ⟨"h1", "u1", "p1"⟩⟩
        (fun _ _ => .completed 0 "ok" "")).1.containsKey "server_id" = false
    ∧ (checkHealth ⟨some "s1", ⟨"h1", "u1", "p1"⟩⟩
        (fun _ _ => .completed 0 "ok" "")).1.containsKey "hostname" = false
    ∧ (∃ dt, Dict.get? (checkHealth ⟨some "s1", ⟨"h1", "u1", "p1"⟩⟩
        (fun _ _ => .completed 0 "ok" "")).1 "details" = some (.vdict dt)
        ∧ hasIds dt) := by
  have hA := C1_attribution_fields ⟨some "s1", ⟨"h1", "u1", "p1"⟩⟩
    (fun _ _ => .completed 0 "ok" "") false false false "pxe" 50 "power_on"
    "s2" "boom" (.ok []) []
  have hB := C1_attribution_fields ⟨some "s1", ⟨"h1", "u1", "p1"⟩⟩
    (fun _ _ => .timedOut) false false false "pxe" 50 "power_on"
    "s2" "boom" (.ok []) []
  obtain ⟨h1, -, -, -, -, -, -, -, -, -, -, -, hsucc, hexn, -⟩ := hA
  obtain ⟨-, -, -, -, -, -, -, -, -, -, -, hfail, -⟩ := hB
  have hs := hsucc rfl
  exact ⟨h1, hexn.2, hfail rfl, hs.1, hs.2.1, hs.2.2⟩
